import Mathlib

/-!
# Verification of the ESP8266 AT command engine and MQTT session layer

A shallow embedding of `Core/Src/esp8266.c` and `Core/Src/esp8266_mqtt.c`.
C strings are modelled as Lean `String` / `List Char` (ASCII, no interior NUL);
nullable `char *` parameters carry an explicit `Bool` null flag.  Machine
integers appear as `Nat`/`Int` with explicit `% 2 ^ w` where the C code can
wrap (`uint8_t subscriptionCount--`, `uint16_t dataLen` from `atoi`).
The receive buffer that the DMA interrupt fills asynchronously is given to
the polling loops as an explicit trace of snapshots (the buffer contents at
each poll instant); the result of an AT exchange performed by a lower layer
is an explicit oracle argument of type `ESP8266_Status`.  Callback function
pointers become registration flags plus an emitted event list.
-/

/-- `ESP8266_Status_t` from `esp8266.h`. -/
inductive ESP8266_Status where
  | OK
  | ERROR
  | TIMEOUT
  | BUSY
  | NOT_FOUND
  | CONNECT_FAIL
  | SEND_FAIL
  | ALREADY_CONNECTED
  | NOT_CONNECTED
  | WIFI_DISCONNECT
  | INVALID_PARAM
deriving DecidableEq, Repr

/-- `MQTT_Status_t` from `esp8266_mqtt.h`. -/
inductive MQTT_Status where
  | OK
  | ERROR
  | TIMEOUT
  | NOT_INITIALIZED
  | NOT_CONNECTED
  | ALREADY_CONNECTED
  | CONNECT_FAIL
  | SUBSCRIBE_FAIL
  | PUBLISH_FAIL
  | INVALID_PARAM
  | BUFFER_FULL
  | WIFI_NOT_CONNECTED
deriving DecidableEq, Repr

/-- The numeric values of `MQTT_State_t`; the C code casts raw `int`s into this
enum (`MQTT_QueryConnection`), so the state field is modelled as `Int`. -/
def MQTT_STATE_NOT_INIT : Int := 0

def MQTT_STATE_USER_SET : Int := 1

def MQTT_STATE_CONN_SET : Int := 2

def MQTT_STATE_DISCONNECTED : Int := 3

def MQTT_STATE_CONNECTED : Int := 4

def MQTT_STATE_CONN_NO_SUB : Int := 5

def MQTT_STATE_CONN_WITH_SUB : Int := 6

/-! ## C string primitives (`string.h`) used by the drivers -/

/-- `strstr`: the suffix of `hay` starting at the first occurrence of
`needle`, or `none`. -/
def strstrSuffix : List Char → List Char → Option (List Char)
  | [], needle => if needle.isPrefixOf ([] : List Char) then some [] else none
  | a :: t, needle =>
      if needle.isPrefixOf (a :: t) then some (a :: t) else strstrSuffix t needle

/-- `strstr(buf, s) != NULL`, i.e. `ESP8266_ContainsString` applied to a given
buffer snapshot (`esp8266.c:480`). -/
def containsString (buf s : String) : Bool :=
  (strstrSuffix buf.toList s.toList).isSome

/-- `strchr`: the suffix of `s` starting at the first occurrence of
character `c`, or `none`. -/
def strchrSuffix : List Char → Char → Option (List Char)
  | [], _ => none
  | a :: t, c => if a = c then some (a :: t) else strchrSuffix t c

/-- Digit-accumulation phase of `atoi`. -/
def atoiDigits : List Char → Nat → Nat
  | [], acc => acc
  | c :: t, acc => if c.isDigit then atoiDigits t (acc * 10 + (c.toNat - 48)) else acc

/-- Leading-whitespace skip phase of `atoi`. -/
def skipWs : List Char → List Char
  | [] => []
  | c :: t => if c.isWhitespace then skipWs t else c :: t

/-- C `atoi`: skip whitespace, optional sign, then leading digits. -/
def atoi (s : List Char) : Int :=
  match skipWs s with
  | '-' :: t => -(atoiDigits t 0 : Int)
  | '+' :: t => (atoiDigits t 0 : Int)
  | t => (atoiDigits t 0 : Int)

/-! ## Transport: `ESP8266_SendDMA` (`esp8266.c:35`)

The function
 1. rejects `NULL` data / zero length with `INVALID_PARAM`;
 2. polls `txBusy` once per ms; at poll instant `t` it returns `TIMEOUT` when
    the flag is still set and `t > 1000`;
 3. sets `txBusy`, hands the bytes to `HAL_UART_Transmit_DMA` (returning
    `ERROR` and clearing the flag if the HAL rejects the request);
 4. polls `txBusy` again once per ms, returning `OK` when the completion
    interrupt has cleared it and forcing the flag to 0 with `TIMEOUT` at the
    first poll instant `t > 5000` where it is still set.

The two interrupt events are modelled by their arrival times: with the flag
cleared at time `c`, the wait loop polling at `t = 0, 1, 2, …` exits
successfully at `t = c` iff `c ≤ limit + 1` and otherwise trips the deadline
check at `t = limit + 1`. -/

/-- Timing environment for one `ESP8266_SendDMA` call. -/
structure TxEnv where
  /-- `some c`: a previous transmit is in flight and its completion interrupt
  clears `txBusy` `c` ms after entry; `none`: `txBusy` is already clear. -/
  priorClearAt : Option Nat
  /-- whether `HAL_UART_Transmit_DMA` accepts the request -/
  halOk : Bool
  /-- `some c`: this transmit's completion interrupt clears `txBusy` `c` ms
  after the DMA start; `none`: the completion never arrives. -/
  complAt : Option Nat
deriving DecidableEq, Repr

/-- `ESP8266_SendDMA` (`esp8266.c:35`). -/
def ESP8266_SendDMA (dataNull : Bool) (len : Nat) (env : TxEnv) : ESP8266_Status :=
  if dataNull || len = 0 then .INVALID_PARAM
  else
    let priorStuck := match env.priorClearAt with
      | none => false
      | some c => decide (1000 + 1 < c)
    if priorStuck then .TIMEOUT
    else if !env.halOk then .ERROR
    else match env.complAt with
      | none => .TIMEOUT
      | some c => if c ≤ 5000 + 1 then .OK else .TIMEOUT

/-! ## Command engine: `ESP8266_SendCommand` (`esp8266.c:444`)

`ESP8266_WaitForResponse` polls the receive buffer every 10 ms until the
token is a substring or the deadline elapses; only then does
`ESP8266_SendCommand` consult the buffer for `"ERROR"` and `"BUSY"`.  The
asynchronously-filled buffer is modelled as a trace: its contents at each
poll instant before the deadline, plus its contents once the deadline has
elapsed (when the `ERROR`/`BUSY` checks run). -/

/-- Receive-buffer trace seen by one polling exchange. -/
structure RxTrace where
  /-- buffer snapshot at each 10 ms poll instant before the deadline -/
  polls : List String
  /-- buffer contents once the deadline has elapsed -/
  atDeadline : String
deriving DecidableEq, Repr

/-- `ESP8266_WaitForResponse` (`esp8266.c:471`): true iff some poll snapshot
within the deadline contains the token. -/
def ESP8266_WaitForResponse (tr : RxTrace) (tok : String) : Bool :=
  tr.polls.any (fun b => containsString b tok)

/-- `ESP8266_SendCommand` (`esp8266.c:444`).  Returns the classification and
the list of byte strings actually handed to the UART.  A `NULL` command is
rejected before anything is sent; a zero-length command reaches
`ESP8266_SendDMA`, which rejects it (`len == 0`) without transmitting, and
`ESP8266_SendCommand` ignores that status and carries on. -/
def ESP8266_SendCommand (cmd : Option String) (expectedResp : Option String)
    (tr : RxTrace) : ESP8266_Status × List String :=
  match cmd with
  | none => (.INVALID_PARAM, [])
  | some c =>
      let sent := if c.length = 0 then [] else [c]
      match expectedResp with
      | none => (.OK, sent)
      | some tok =>
          if ESP8266_WaitForResponse tr tok then (.OK, sent)
          else if containsString tr.atDeadline "ERROR" then (.ERROR, sent)
          else if containsString tr.atDeadline "BUSY" then (.BUSY, sent)
          else (.TIMEOUT, sent)

/-! ## MQTT session layer data model (`esp8266_mqtt.h`) -/

/-- `MQTT_Subscription_t`.  `strncpy` with bound `MQTT_TOPIC_MAX_LEN - 1 = 127`
truncates stored topics. -/
structure Subscription where
  topic : String
  qos : Nat
  active : Bool
deriving DecidableEq, Repr

/-- The all-zero subscription entry produced by `memset 0`. -/
def Subscription.empty : Subscription :=
  { topic := "", qos := 0, active := false }

/-- One MQTT-layer callback invocation. -/
inductive MqttEvent where
  | connected
  | disconnected
  | messageReceived (topic : String) (data : String) (dataLen : Nat)
  | publishComplete (topic : String)
  | subscribed (topic : String)
  | unsubscribed (topic : String)
  | error (e : MQTT_Status)
deriving DecidableEq, Repr

/-- The mutable fields of `MQTT_Handle_t` the claims depend on.  Callback
function pointers are reduced to registration flags; `state` is `Int`
because `MQTT_QueryConnection` casts an arbitrary parsed `int` into
`MQTT_State_t`. -/
structure MqttState where
  subs : List Subscription
  subscriptionCount : Nat
  state : Int
  initialized : Bool
  connected : Bool
  publishCount : Nat
  receiveCount : Nat
  reconnectCount : Nat
  msgPending : Bool
  msgBuffer : String
  hasOnConnected : Bool
  hasOnDisconnected : Bool
  hasOnMessageReceived : Bool
  hasOnPublishComplete : Bool
  hasOnSubscribed : Bool
  hasOnUnsubscribed : Bool
  hasOnError : Bool
deriving DecidableEq, Repr

/-- Result of one MQTT operation: status, new handle state, byte strings
handed to the transport (AT command lines and raw payloads), and callback
invocations in order. -/
structure MqttOut where
  status : MQTT_Status
  st : MqttState
  sent : List String
  events : List MqttEvent
deriving DecidableEq, Repr

/-- `strncpy(dst, topic, MQTT_TOPIC_MAX_LEN - 1)` into a zeroed slot. -/
def storeTopic (topic : String) : String :=
  String.mk (topic.toList.take 127)

/-- First pass of `MQTT_AddSubscription` (`esp8266_mqtt.c:959`): update the
QoS of the first active entry with this exact topic. -/
def updateFirstSub : List Subscription → String → Nat → List Subscription
  | [], _, _ => []
  | s :: rest, topic, qos =>
      if s.active && s.topic == topic then { s with qos := qos } :: rest
      else s :: updateFirstSub rest topic qos

/-- Second pass of `MQTT_AddSubscription` (`esp8266_mqtt.c:969`): fill the
first inactive slot; returns the new list and whether a slot was found. -/
def insertFirstInactive : List Subscription → String → Nat → List Subscription × Bool
  | [], _, _ => ([], false)
  | s :: rest, topic, qos =>
      if !s.active then
        ({ topic := storeTopic topic, qos := qos, active := true } :: rest, true)
      else
        let r := insertFirstInactive rest topic qos
        (s :: r.1, r.2)

/-- `MQTT_AddSubscription` (`esp8266_mqtt.c:956`); `subscriptionCount` is a
`uint8_t`, hence `% 256`. -/
def MQTT_AddSubscription (subs : List Subscription) (count : Nat)
    (topic : String) (qos : Nat) : List Subscription × Nat :=
  if subs.any (fun s => s.active && s.topic == topic) then
    (updateFirstSub subs topic qos, count)
  else
    let r := insertFirstInactive subs topic qos
    (r.1, if r.2 then (count + 1) % 256 else count)

/-- Zero out (`memset 0`) the first active entry with this topic; returns
the new list and whether an entry was removed. -/
def removeFirstSub : List Subscription → String → List Subscription × Bool
  | [], _ => ([], false)
  | s :: rest, topic =>
      if s.active && s.topic == topic then (Subscription.empty :: rest, true)
      else
        let r := removeFirstSub rest topic
        (s :: r.1, r.2)

/-- `MQTT_RemoveSubscription` (`esp8266_mqtt.c:983`): zero out the first
active entry with this topic and decrement the `uint8_t` count
(wrapping modulo 256, as `mqtt.subscriptionCount--` does). -/
def MQTT_RemoveSubscription (subs : List Subscription) (count : Nat)
    (topic : String) : List Subscription × Nat :=
  let r := removeFirstSub subs topic
  (r.1, if r.2 then (count + 255) % 256 else count)

/-! ## MQTT session operations (`esp8266_mqtt.c`)

Each operation takes the current handle state, explicit null flags for
pointer arguments, and an oracle for the classification the underlying
`ESP8266_SendCommandF` exchange produced.  It yields an `MqttOut`. -/

/-- The `AT+MQTTSUB` command line built by `MQTT_Subscribe`
(`MQTT_LINK_ID = 0`). -/
def mqttSubCmd (topic : String) (qos : Nat) : String :=
  "AT+MQTTSUB=0,\"" ++ topic ++ "\"," ++ toString qos ++ "\r\n"

/-- `MQTT_Subscribe` (`esp8266_mqtt.c:442`). -/
def MQTT_Subscribe (m : MqttState) (topicNull : Bool) (topic : String)
    (qos : Nat) (exch : ESP8266_Status) : MqttOut :=
  if !m.initialized then ⟨.NOT_INITIALIZED, m, [], []⟩
  else if !m.connected then ⟨.NOT_CONNECTED, m, [], []⟩
  else if topicNull then ⟨.INVALID_PARAM, m, [], []⟩
  else if 8 ≤ m.subscriptionCount then ⟨.BUFFER_FULL, m, [], []⟩
  else if exch ≠ .OK then ⟨.SUBSCRIBE_FAIL, m, [mqttSubCmd topic qos], []⟩
  else
    let r := MQTT_AddSubscription m.subs m.subscriptionCount topic qos
    ⟨.OK,
     { m with subs := r.1, subscriptionCount := r.2,
              state := MQTT_STATE_CONN_WITH_SUB },
     [mqttSubCmd topic qos],
     if m.hasOnSubscribed then [.subscribed topic] else []⟩

/-- The `AT+MQTTUNSUB` command line built by `MQTT_Unsubscribe`. -/
def mqttUnsubCmd (topic : String) : String :=
  "AT+MQTTUNSUB=0,\"" ++ topic ++ "\"\r\n"

/-- `MQTT_Unsubscribe` (`esp8266_mqtt.c:497`). -/
def MQTT_Unsubscribe (m : MqttState) (topicNull : Bool) (topic : String)
    (exch : ESP8266_Status) : MqttOut :=
  if !m.initialized then ⟨.NOT_INITIALIZED, m, [], []⟩
  else if !m.connected then ⟨.NOT_CONNECTED, m, [], []⟩
  else if topicNull then ⟨.INVALID_PARAM, m, [], []⟩
  else if exch ≠ .OK then ⟨.ERROR, m, [mqttUnsubCmd topic], []⟩
  else
    let r := MQTT_RemoveSubscription m.subs m.subscriptionCount topic
    ⟨.OK, { m with subs := r.1, subscriptionCount := r.2 },
     [mqttUnsubCmd topic],
     if m.hasOnUnsubscribed then [.unsubscribed topic] else []⟩

/-- `MQTT_Disconnect` (`esp8266_mqtt.c:374`): issues `AT+MQTTCLEAN=0`, then
unconditionally clears `connected`, sets `MQTT_STATE_DISCONNECTED`, wipes
the subscription array and count, and fires `onDisconnected`; only the
returned status depends on the exchange. -/
def MQTT_Disconnect (m : MqttState) (exch : ESP8266_Status) : MqttOut :=
  if !m.initialized then ⟨.NOT_INITIALIZED, m, [], []⟩
  else
    ⟨if exch = .OK then .OK else .ERROR,
     { m with connected := false, state := MQTT_STATE_DISCONNECTED,
              subs := List.replicate 8 Subscription.empty,
              subscriptionCount := 0 },
     ["AT+MQTTCLEAN=0\r\n"],
     if m.hasOnDisconnected then [.disconnected] else []⟩

/-- `MQTT_Clean` (`esp8266_mqtt.c:425`): issues `AT+MQTTCLEAN=0`, clears
`connected` and resets `state` to `MQTT_STATE_NOT_INIT`; the subscription
array and count are not touched. -/
def MQTT_Clean (m : MqttState) (exch : ESP8266_Status) : MqttOut :=
  ⟨if exch = .OK then .OK else .ERROR,
   { m with connected := false, state := MQTT_STATE_NOT_INIT },
   ["AT+MQTTCLEAN=0\r\n"], []⟩

/-- The `AT+MQTTPUBRAW` command line built by `MQTT_Publish` /
`MQTT_PublishRaw`. -/
def mqttPubrawCmd (topic : String) (len qos : Nat) (retain : Bool) : String :=
  "AT+MQTTPUBRAW=0,\"" ++ topic ++ "\"," ++ toString len ++ ","
    ++ toString qos ++ "," ++ (if retain then "1" else "0") ++ "\r\n"

/-- The wait loop at the end of `MQTT_Publish` (`esp8266_mqtt.c:603`): every
10 ms the buffer is checked first for `"+MQTTPUB:OK"` / `"OK"` (success),
then for `"ERROR"` / `"FAIL"` (failure); the deadline yields a timeout.
`polls` are the buffer snapshots at the poll instants before the deadline. -/
def publishWait : List String → Option Bool
  | [] => none
  | b :: rest =>
      if containsString b "+MQTTPUB:OK" || containsString b "OK" then some true
      else if containsString b "ERROR" || containsString b "FAIL" then some false
      else publishWait rest

/-- `MQTT_Publish` (`esp8266_mqtt.c:573`).  The `!mqtt.initialized` and
`!mqtt.connected` guards present in sibling operations are commented out in
the source, so no state guard runs: after the null checks the
`AT+MQTTPUBRAW` prompt exchange is issued unconditionally.  `exchPrompt` is
the classification of that exchange against token `">"`; `dmaStatus` is the
result of `ESP8266_SendDMA` on the payload (the payload reaches the UART
exactly when `strlen(message) > 0`, since `ESP8266_SendDMA` rejects length
0 before transmitting); `polls` feeds the final wait loop. -/
def MQTT_Publish (m : MqttState) (topicNull msgNull : Bool)
    (topic msg : String) (qos : Nat) (retain : Bool)
    (exchPrompt dmaStatus : ESP8266_Status) (polls : List String) : MqttOut :=
  if topicNull || msgNull then ⟨.INVALID_PARAM, m, [], []⟩
  else
    let len := msg.length
    let cmd := mqttPubrawCmd topic len qos retain
    if exchPrompt ≠ .OK then ⟨.PUBLISH_FAIL, m, [cmd], []⟩
    else
      let sent := cmd :: (if len = 0 then [] else [msg])
      if dmaStatus ≠ .OK then ⟨.PUBLISH_FAIL, m, sent, []⟩
      else
        match publishWait polls with
        | some true =>
            ⟨.OK, { m with publishCount := m.publishCount + 1 }, sent,
             if m.hasOnPublishComplete then [.publishComplete topic] else []⟩
        | some false => ⟨.PUBLISH_FAIL, m, sent, []⟩
        | none => ⟨.TIMEOUT, m, sent, []⟩

/-- `MQTT_PublishData` (`esp8266_mqtt.c:633`), short-payload path only as far
as its guards: this sibling keeps the `NOT_INITIALIZED` / `NOT_CONNECTED`
guards that `MQTT_Publish` has commented out.  Only the guard prefix is
modelled; once the guards pass, control reaches the publish paths. -/
inductive PublishDataGuard where
  | notInitialized
  | notConnected
  | invalidParam
  | proceeds
deriving DecidableEq, Repr

/-- Guard prefix of `MQTT_PublishData` (`esp8266_mqtt.c:636`). -/
def MQTT_PublishData_guard (m : MqttState) (topicNull dataNull : Bool)
    (len : Nat) : PublishDataGuard :=
  if !m.initialized then .notInitialized
  else if !m.connected then .notConnected
  else if topicNull || dataNull || len = 0 then .invalidParam
  else .proceeds

/-- `MQTT_QueryConnection` (`esp8266_mqtt.c:751`): sends `AT+MQTTCONN?`
expecting `"OK"`; on any non-`OK` classification returns `MQTT_ERROR`
without touching the state.  Otherwise it looks for `"+MQTTCONN:"` in the
response buffer, skips the link id up to the first comma, parses the next
field with `atoi`, stores it into `state` (a raw enum cast) and sets
`connected = (state >= 4)`; when parsing fails the state is left unchanged
and `MQTT_OK` is still returned. -/
def MQTT_QueryConnection (m : MqttState) (exch : ESP8266_Status)
    (respBuf : String) : MQTT_Status × MqttState :=
  if exch ≠ .OK then (.ERROR, m)
  else
    match strstrSuffix respBuf.toList "+MQTTCONN:".toList with
    | none => (.OK, m)
    | some p =>
        match strchrSuffix (p.drop 10) ',' with
        | none => (.OK, m)
        | some q =>
            let st := atoi (q.drop 1)
            (.OK, { m with state := st, connected := decide (4 ≤ st) })

/-- The message record carried to `onMessageReceived`.  `dataLen` is the
`uint16_t` produced from `atoi`; `data` is the `memcpy` of
`min(dataLen, MQTT_MESSAGE_MAX_LEN - 1)` bytes after the third comma
(clipped to the bytes actually available in the buffer). -/
structure MqttMessage where
  topic : String
  data : String
  dataLen : Nat
deriving DecidableEq, Repr

/-- `MQTT_ParseSubMessage` (`esp8266_mqtt.c:837`) on a non-NULL buffer:
`some msg` when control reaches the callback point (`MQTT_OK`), `none` on
the early `MQTT_ERROR` exits.  Follows the pointer walk of the C code:
`strstr "+MQTTSUBRECV:"`, `ptr += 13`, comma, optional quoted topic
(`strncpy` clamped to 127 chars), comma, `atoi` length (`uint16_t`), comma,
payload copy clamped to 1023 bytes. -/
def MQTT_ParseSubMessage (input : List Char) : Option MqttMessage :=
  match strstrSuffix input "+MQTTSUBRECV:".toList with
  | none => none
  | some p0 =>
      let p1 := p0.drop 13
      match strchrSuffix p1 ',' with
      | none => none
      | some p2 =>
          let p2 := p2.drop 1
          let tp : List Char × List Char :=
            match p2 with
            | '"' :: rest =>
                match strchrSuffix rest '"' with
                | some e =>
                    let len := min (rest.length - e.length) 127
                    (rest.take len, e.drop 1)
                | none => ([], rest)
            | _ => ([], p2)
          match strchrSuffix tp.2 ',' with
          | none => none
          | some p4 =>
              let p4 := p4.drop 1
              let dataLen := (atoi p4 % 65536).toNat
              match strchrSuffix p4 ',' with
              | none => none
              | some p5 =>
                  let copyLen := min dataLen 1023
                  some ⟨String.mk tp.1, String.mk ((p5.drop 1).take copyLen),
                        dataLen⟩

/-- Successful parse effect: bump `receiveCount` and fire
`onMessageReceived` when registered (`esp8266_mqtt.c:891`). -/
def parseEffect (m : MqttState) (r : Option MqttMessage) :
    MqttState × List MqttEvent :=
  match r with
  | none => (m, [])
  | some msg =>
      ({ m with receiveCount := m.receiveCount + 1 },
       if m.hasOnMessageReceived then
         [.messageReceived msg.topic msg.data msg.dataLen]
       else [])

/-- `MQTT_ProcessData` (`esp8266_mqtt.c:905`), the periodic processing tick:
drain the pending-message flag first, then scan the live response buffer
`respBuf` for disconnect / connect markers and finally for a
`+MQTTSUBRECV:` line. -/
def MQTT_ProcessData (m : MqttState) (respBuf : String) :
    MqttState × List MqttEvent :=
  if !m.initialized then (m, [])
  else
    let s1 :=
      if m.msgPending then
        parseEffect { m with msgPending := false }
          (MQTT_ParseSubMessage m.msgBuffer.toList)
      else (m, [])
    let s2 :=
      if containsString respBuf "+MQTTDISCONNECTED:" then
        ({ s1.1 with connected := false, state := MQTT_STATE_DISCONNECTED },
         if s1.1.hasOnDisconnected then [MqttEvent.disconnected] else [])
      else (s1.1, [])
    let s3 :=
      if containsString respBuf "+MQTTCONNECTED:" then
        ({ s2.1 with connected := true, state := MQTT_STATE_CONNECTED },
         if s2.1.hasOnConnected then [MqttEvent.connected] else [])
      else (s2.1, [])
    let s4 :=
      if containsString respBuf "+MQTTSUBRECV:" then
        parseEffect s3.1 (MQTT_ParseSubMessage respBuf.toList)
      else (s3.1, [])
    (s4.1, s1.2 ++ s2.2 ++ s3.2 ++ s4.2)

/-! ## Concrete example states -/

/-- The handle right after `MQTT_Init` (zeroed, `initialized = 1`,
no callbacks registered, not connected). -/
def initMqtt : MqttState where
  subs := List.replicate 8 Subscription.empty
  subscriptionCount := 0
  state := MQTT_STATE_NOT_INIT
  initialized := true
  connected := false
  publishCount := 0
  receiveCount := 0
  reconnectCount := 0
  msgPending := false
  msgBuffer := ""
  hasOnConnected := false
  hasOnDisconnected := false
  hasOnMessageReceived := false
  hasOnPublishComplete := false
  hasOnSubscribed := false
  hasOnUnsubscribed := false
  hasOnError := false

/-- A connected session holding one active subscription, `t/1` at QoS 0. -/
def exSubscribed : MqttState :=
  { initMqtt with
      connected := true
      state := MQTT_STATE_CONN_WITH_SUB
      subs := { topic := "t/1", qos := 0, active := true }
                :: List.replicate 7 Subscription.empty
      subscriptionCount := 1 }

/-! ## Claim theorems -/

/-- C1: the claim says `MQTT_Publish` while not connected returns
`NOT_CONNECTED` and issues no `AT+MQTTPUBRAW` exchange.  The
`if (!mqtt.connected) return MQTT_NOT_CONNECTED;` guard in the source is
commented out, so at the failing input — an initialized session with
`connected = 0`, topic `"t"`, message `"m"` — the exchange line and the
payload are both handed to the co-processor and the call returns the
exchange's outcome (`OK` here), not `NOT_CONNECTED`. -/
theorem mqtt_publish_ignores_connected_flag :
    initMqtt.connected = false ∧
    (MQTT_Publish initMqtt false false "t" "m" 0 false .OK .OK
        ["+MQTTPUB:OK"]).sent
      = ["AT+MQTTPUBRAW=0,\"t\",1,0,0\r\n", "m"] ∧
    (MQTT_Publish initMqtt false false "t" "m" 0 false .OK .OK
        ["+MQTTPUB:OK"]).status = MQTT_Status.OK ∧
    (MQTT_Publish initMqtt false false "t" "m" 0 false .OK .OK
        ["+MQTTPUB:OK"]).status ≠ MQTT_Status.NOT_CONNECTED := by
  decide

/-- C5 counterexample: with a previous transmit in flight whose completion
only arrives after 2000 ms, `ESP8266_SendDMA` does not fail with `BUSY` as
the claim states: it waits its 1 s window and returns `TIMEOUT`. -/
theorem sendDMA_busy_counterexample :
    ESP8266_SendDMA false 1 ⟨some 2000, true, some 10⟩
      = ESP8266_Status.TIMEOUT ∧
    ESP8266_SendDMA false 1 ⟨some 2000, true, some 10⟩
      ≠ ESP8266_Status.BUSY := by
  decide

/-- C5 amended: if a transmit is already in flight, `ESP8266_SendDMA` waits
up to 1 s for the busy flag to clear and returns `TIMEOUT` (never `BUSY`)
when it does not; once the flag is clear it marks the slot busy, starts the
transmission and blocks until the completion notification, returning `OK`
when it arrives within the 5 s ceiling and `TIMEOUT` otherwise. -/
theorem sendDMA_amended (len c d : Nat) (h : 0 < len) :
    (1000 + 1 < c → ∀ hal compl,
        ESP8266_SendDMA false len ⟨some c, hal, compl⟩
          = ESP8266_Status.TIMEOUT) ∧
    (c ≤ 1000 + 1 →
        ESP8266_SendDMA false len ⟨some c, true, some d⟩
          = if d ≤ 5000 + 1 then ESP8266_Status.OK
            else ESP8266_Status.TIMEOUT) ∧
    (ESP8266_SendDMA false len ⟨none, true, some d⟩
        = if d ≤ 5000 + 1 then ESP8266_Status.OK
          else ESP8266_Status.TIMEOUT) ∧
    (ESP8266_SendDMA false len ⟨none, true, none⟩
        = ESP8266_Status.TIMEOUT) := by
  have hlen : ¬ len = 0 := Nat.pos_iff_ne_zero.mp h
  refine ⟨?_, ?_, ?_, ?_⟩
  · intro hc hal compl
    simp [ESP8266_SendDMA, hlen, hc]
  · intro hc
    have hnc : ¬ (1000 + 1 < c) := by omega
    simp [ESP8266_SendDMA, hlen, hnc]
  · simp [ESP8266_SendDMA, hlen]
  · simp [ESP8266_SendDMA, hlen]

/-- C5 amended, witness. -/
theorem sendDMA_amended_witness :
    ESP8266_SendDMA false 1 ⟨some 2000, false, none⟩
      = ESP8266_Status.TIMEOUT ∧
    ESP8266_SendDMA false 1 ⟨some 10, true, some 20⟩ = ESP8266_Status.OK ∧
    ESP8266_SendDMA false 1 ⟨none, true, some 9000⟩
      = ESP8266_Status.TIMEOUT ∧
    ESP8266_SendDMA false 1 ⟨none, true, none⟩ = ESP8266_Status.TIMEOUT := by
  refine ⟨(sendDMA_amended 1 2000 0 (by decide)).1 (by decide) false none,
          ?_, ?_, (sendDMA_amended 1 0 0 (by decide)).2.2.2⟩
  · have := (sendDMA_amended 1 10 20 (by decide)).2.1 (by decide)
    simpa using this
  · have := (sendDMA_amended 1 0 9000 (by decide)).2.2.1
    simpa using this

/-- C7 counterexample: from a connected session holding one subscription,
`MQTT_Clean` leaves the session not connected but does not empty the
subscription set — the stored entry and the count of 1 survive,
contradicting the claim that Clean leaves the set empty and that every
non-connected state has an empty set. -/
theorem mqtt_clean_keeps_subscriptions :
    exSubscribed.subscriptionCount = 1 ∧
    (MQTT_Clean exSubscribed .OK).st.connected = false ∧
    (MQTT_Clean exSubscribed .OK).st.subs = exSubscribed.subs ∧
    ¬ (MQTT_Clean exSubscribed .OK).st.subscriptionCount = 0 := by
  decide

/-- C7 amended: only `MQTT_Disconnect` drops the stored subscriptions (every
entry inactive, count 0); `MQTT_Clean` clears `connected` and resets the
state but leaves the subscription array and count untouched, so a
non-connected session reached through `Clean` can still hold entries. -/
theorem mqtt_disconnect_clears_clean_preserves :
    (∀ (m : MqttState) (exch : ESP8266_Status), m.initialized = true →
        (MQTT_Disconnect m exch).st.subscriptionCount = 0 ∧
        ∀ s ∈ (MQTT_Disconnect m exch).st.subs, s.active = false) ∧
    (∀ (m : MqttState) (exch : ESP8266_Status),
        (MQTT_Clean m exch).st.subs = m.subs ∧
        (MQTT_Clean m exch).st.subscriptionCount = m.subscriptionCount ∧
        (MQTT_Clean m exch).st.connected = false) := by
  constructor
  · intro m exch h1
    refine ⟨by simp [MQTT_Disconnect, h1], ?_⟩
    intro s hs
    simp only [MQTT_Disconnect, h1, Bool.not_true, Bool.false_eq_true,
      if_false] at hs
    have : s = Subscription.empty := List.eq_of_mem_replicate hs
    simp [this, Subscription.empty]
  · intro m exch
    exact ⟨rfl, rfl, rfl⟩

/-- C7 amended, witness. -/
theorem mqtt_disconnect_clears_clean_preserves_witness :
    (MQTT_Disconnect exSubscribed .OK).st.subscriptionCount = 0 ∧
    (MQTT_Clean exSubscribed .OK).st.subscriptionCount
      = exSubscribed.subscriptionCount := by
  exact ⟨(mqtt_disconnect_clears_clean_preserves.1 exSubscribed .OK
            (by decide)).1,
         (mqtt_disconnect_clears_clean_preserves.2 exSubscribed .OK).2.1⟩

/-- C8 counterexample: a zero-length (non-NULL) command is not rejected:
with no expected token `ESP8266_SendCommand` returns `OK`, not
`INVALID_PARAM` (nothing is transmitted, but the zero-length rejection
raised inside `ESP8266_SendDMA` is discarded). -/
theorem sendCommand_empty_not_invalid :
    ESP8266_SendCommand (some "") none ⟨[], ""⟩ = (ESP8266_Status.OK, []) ∧
    (ESP8266_SendCommand (some "") none ⟨[], ""⟩).1
      ≠ ESP8266_Status.INVALID_PARAM := by
  decide

/-- C8 amended: a NULL command returns `INVALID_PARAM` and transmits
nothing; an empty command also transmits nothing, but its status is never
`INVALID_PARAM` — the zero-length failure of `ESP8266_SendDMA` is ignored
and the call goes on to classify the response (immediately `OK` when no
token is expected). -/
theorem sendCommand_null_empty_amended (tok : Option String) (tr : RxTrace) :
    ESP8266_SendCommand none tok tr = (ESP8266_Status.INVALID_PARAM, []) ∧
    (ESP8266_SendCommand (some "") tok tr).2 = [] ∧
    (ESP8266_SendCommand (some "") tok tr).1
      ≠ ESP8266_Status.INVALID_PARAM := by
  refine ⟨rfl, ?_, ?_⟩
  · cases tok with
    | none => rfl
    | some t =>
        simp only [ESP8266_SendCommand]
        split
        · rfl
        · split
          · rfl
          · split
            · rfl
            · rfl
  · cases tok with
    | none => simp [ESP8266_SendCommand]
    | some t =>
        simp only [ESP8266_SendCommand]
        split
        · simp
        · split
          · simp
          · split
            · simp
            · simp

/-- C8 amended, witness. -/
theorem sendCommand_null_empty_amended_witness :
    ESP8266_SendCommand none (some "OK") ⟨[], ""⟩
      = (ESP8266_Status.INVALID_PARAM, []) ∧
    (ESP8266_SendCommand (some "") (some "OK") ⟨[], ""⟩).2 = [] := by
  exact ⟨(sendCommand_null_empty_amended (some "OK") ⟨[], ""⟩).1,
         (sendCommand_null_empty_amended (some "OK") ⟨[], ""⟩).2.1⟩

/-- C10: `MQTT_Disconnect` performs its local transition unconditionally on
the `AT+MQTTCLEAN` outcome: even when the exchange fails (and the returned
status is `MQTT_ERROR`), the connected flag is cleared, the state becomes
`MQTT_STATE_DISCONNECTED`, every subscription is dropped, and the
registered `onDisconnected` callback fires. -/
theorem mqtt_disconnect_unconditional (m : MqttState)
    (exch : ESP8266_Status) (h1 : m.initialized = true) :
    (MQTT_Disconnect m exch).st.connected = false ∧
    (MQTT_Disconnect m exch).st.state = MQTT_STATE_DISCONNECTED ∧
    (MQTT_Disconnect m exch).st.subscriptionCount = 0 ∧
    (∀ s ∈ (MQTT_Disconnect m exch).st.subs, s.active = false) ∧
    (m.hasOnDisconnected = true →
        (MQTT_Disconnect m exch).events = [MqttEvent.disconnected]) ∧
    (exch ≠ .OK → (MQTT_Disconnect m exch).status = MQTT_Status.ERROR) ∧
    (exch = .OK → (MQTT_Disconnect m exch).status = MQTT_Status.OK) := by
  refine ⟨by simp [MQTT_Disconnect, h1], by simp [MQTT_Disconnect, h1],
          by simp [MQTT_Disconnect, h1], ?_, ?_, ?_, ?_⟩
  · intro s hs
    simp only [MQTT_Disconnect, h1, Bool.not_true, Bool.false_eq_true,
      if_false] at hs
    have : s = Subscription.empty := List.eq_of_mem_replicate hs
    simp [this, Subscription.empty]
  · intro hcb; simp [MQTT_Disconnect, h1, hcb]
  · intro hex; simp [MQTT_Disconnect, h1, hex]
  · intro hex; simp [MQTT_Disconnect, h1, hex]

/-- C10, witness. -/
theorem mqtt_disconnect_unconditional_witness :
    (MQTT_Disconnect { exSubscribed with hasOnDisconnected := true }
        .TIMEOUT).st.connected = false ∧
    (MQTT_Disconnect { exSubscribed with hasOnDisconnected := true }
        .TIMEOUT).events = [MqttEvent.disconnected] ∧
    (MQTT_Disconnect { exSubscribed with hasOnDisconnected := true }
        .TIMEOUT).status = MQTT_Status.ERROR := by
  have h := mqtt_disconnect_unconditional
    { exSubscribed with hasOnDisconnected := true } .TIMEOUT (by decide)
  exact ⟨h.1, h.2.2.2.2.1 (by decide), h.2.2.2.2.2.1 (by decide)⟩

/-- C2: with a non-null expected token, the token is checked first on each
poll cycle — any snapshot containing it within the deadline yields `OK`,
regardless of `ERROR`/busy markers also present; only when the token never
appeared are the deadline buffer's `ERROR` (then `BUSY`) markers consulted,
and with none of them present the result is `TIMEOUT`. -/
theorem sendCommand_token_precedence (c tok : String) (tr : RxTrace) :
    (ESP8266_WaitForResponse tr tok = true →
        (ESP8266_SendCommand (some c) (some tok) tr).1 = ESP8266_Status.OK) ∧
    (ESP8266_WaitForResponse tr tok = false →
        containsString tr.atDeadline tok = false →
        containsString tr.atDeadline "ERROR" = true →
        (ESP8266_SendCommand (some c) (some tok) tr).1
          = ESP8266_Status.ERROR) ∧
    (ESP8266_WaitForResponse tr tok = false →
        containsString tr.atDeadline "ERROR" = false →
        containsString tr.atDeadline "BUSY" = false →
        (ESP8266_SendCommand (some c) (some tok) tr).1
          = ESP8266_Status.TIMEOUT) := by
  refine ⟨?_, ?_, ?_⟩
  · intro hw
    simp [ESP8266_SendCommand, hw]
  · intro hw _ he
    simp [ESP8266_SendCommand, hw, he]
  · intro hw he hb
    simp [ESP8266_SendCommand, hw, he, hb]

/-- C2, witness: a response containing both the token and `ERROR` is still
`OK`; `ERROR` without the token is `ERROR`; nothing at all is `TIMEOUT`. -/
theorem sendCommand_token_precedence_witness :
    (ESP8266_SendCommand (some "AT\r\n") (some "OK")
        ⟨["", "OK ERROR"], "OK ERROR"⟩).1 = ESP8266_Status.OK ∧
    (ESP8266_SendCommand (some "AT\r\n") (some "OK")
        ⟨[""], "ERROR"⟩).1 = ESP8266_Status.ERROR ∧
    (ESP8266_SendCommand (some "AT\r\n") (some "OK")
        ⟨[""], ""⟩).1 = ESP8266_Status.TIMEOUT := by
  exact ⟨(sendCommand_token_precedence "AT\r\n" "OK" _).1 (by decide),
         (sendCommand_token_precedence "AT\r\n" "OK" _).2.1 (by decide)
           (by decide) (by decide),
         (sendCommand_token_precedence "AT\r\n" "OK" _).2.2 (by decide)
           (by decide) (by decide)⟩

/-- C4: feeding `+MQTTSUBRECV:0,"t/1",5,hello` to the periodic processing
tick with a message callback registered (and no eagerly-buffered pending
message) produces exactly one `onMessageReceived` invocation, carrying
topic `"t/1"`, data `"hello"`, and `dataLen = 5`. -/
theorem processTick_subrecv (m : MqttState)
    (h1 : m.initialized = true) (h2 : m.msgPending = false)
    (h3 : m.hasOnMessageReceived = true) :
    (MQTT_ProcessData m "+MQTTSUBRECV:0,\"t/1\",5,hello").2
        = [MqttEvent.messageReceived "t/1" "hello" 5] ∧
    (MQTT_ProcessData m "+MQTTSUBRECV:0,\"t/1\",5,hello").1.receiveCount
        = m.receiveCount + 1 := by
  have hd : containsString "+MQTTSUBRECV:0,\"t/1\",5,hello"
      "+MQTTDISCONNECTED:" = false := by decide
  have hc : containsString "+MQTTSUBRECV:0,\"t/1\",5,hello"
      "+MQTTCONNECTED:" = false := by decide
  have hs : containsString "+MQTTSUBRECV:0,\"t/1\",5,hello"
      "+MQTTSUBRECV:" = true := by decide
  have hp : MQTT_ParseSubMessage
      ("+MQTTSUBRECV:0,\"t/1\",5,hello").toList
        = some ⟨"t/1", "hello", 5⟩ := by decide
  simp at hp
  constructor
  · simp [MQTT_ProcessData, h1, h2, h3, hd, hc, hs, hp, parseEffect]
  · simp [MQTT_ProcessData, h1, h2, h3, hd, hc, hs, hp, parseEffect]

/-- C4, witness. -/
theorem processTick_subrecv_witness :
    (MQTT_ProcessData { initMqtt with hasOnMessageReceived := true }
        "+MQTTSUBRECV:0,\"t/1\",5,hello").2
      = [MqttEvent.messageReceived "t/1" "hello" 5] :=
  (processTick_subrecv { initMqtt with hasOnMessageReceived := true }
    (by decide) (by decide) (by decide)).1

/-- `strstr` finds its needle at the head of the haystack. -/
theorem strstrSuffix_self_append (n t : List Char) :
    strstrSuffix (n ++ t) n = some (n ++ t) := by
  have hpre : n.isPrefixOf (n ++ t) = true := by
    rw [List.isPrefixOf_iff_prefix]
    exact List.prefix_append n t
  cases hnt : n ++ t with
  | nil =>
      have hn : n = [] := (List.append_eq_nil.mp hnt).1
      subst hn
      simp_all [strstrSuffix]
  | cons a l =>
      rw [hnt] at hpre
      simp [strstrSuffix, hpre]

/-- `MQTT_QueryConnection` against a buffer beginning `+MQTTCONN:0,4,`. -/
theorem MQTT_QueryConnection_state4 (m : MqttState) (rest : List Char) :
    MQTT_QueryConnection m .OK
      (String.mk ("+MQTTCONN:0,4,".toList ++ rest))
      = (.OK, { m with state := 4, connected := true }) := by
  have hsplit : ("+MQTTCONN:0,4,".toList ++ rest : List Char)
      = "+MQTTCONN:".toList ++ ('0' :: ',' :: '4' :: ',' :: rest) := by
    rw [show ("+MQTTCONN:0,4,".toList : List Char)
          = "+MQTTCONN:".toList ++ ['0', ',', '4', ','] from rfl,
        List.append_assoc]
    rfl
  have hlen : ("+MQTTCONN:".toList : List Char).length = 10 := rfl
  have hdrop :
      ("+MQTTCONN:".toList ++ ('0' :: ',' :: '4' :: ',' :: rest)).drop 10
        = '0' :: ',' :: '4' :: ',' :: rest := by
    rw [← hlen]
    exact List.drop_left _ _
  have hchr : strchrSuffix ('0' :: ',' :: '4' :: ',' :: rest) ','
      = some (',' :: '4' :: ',' :: rest) := by
    simp [strchrSuffix]
  have hatoi : atoi ('4' :: ',' :: rest) = 4 := by
    simp [atoi, skipWs, atoiDigits]
  unfold MQTT_QueryConnection
  rw [show (String.mk ("+MQTTCONN:0,4,".toList ++ rest)).toList
        = "+MQTTCONN:0,4,".toList ++ rest from rfl, hsplit,
      strstrSuffix_self_append]
  simp [hdrop, hchr, hatoi]

/-- `MQTT_QueryConnection` against a buffer beginning `+MQTTCONN:0,3,`. -/
theorem MQTT_QueryConnection_state3 (m : MqttState) (rest : List Char) :
    MQTT_QueryConnection m .OK
      (String.mk ("+MQTTCONN:0,3,".toList ++ rest))
      = (.OK, { m with state := 3, connected := false }) := by
  have hsplit : ("+MQTTCONN:0,3,".toList ++ rest : List Char)
      = "+MQTTCONN:".toList ++ ('0' :: ',' :: '3' :: ',' :: rest) := by
    rw [show ("+MQTTCONN:0,3,".toList : List Char)
          = "+MQTTCONN:".toList ++ ['0', ',', '3', ','] from rfl,
        List.append_assoc]
    rfl
  have hlen : ("+MQTTCONN:".toList : List Char).length = 10 := rfl
  have hdrop :
      ("+MQTTCONN:".toList ++ ('0' :: ',' :: '3' :: ',' :: rest)).drop 10
        = '0' :: ',' :: '3' :: ',' :: rest := by
    rw [← hlen]
    exact List.drop_left _ _
  have hchr : strchrSuffix ('0' :: ',' :: '3' :: ',' :: rest) ','
      = some (',' :: '3' :: ',' :: rest) := by
    simp [strchrSuffix]
  have hatoi : atoi ('3' :: ',' :: rest) = 3 := by
    simp [atoi, skipWs, atoiDigits]
  unfold MQTT_QueryConnection
  rw [show (String.mk ("+MQTTCONN:0,3,".toList ++ rest)).toList
        = "+MQTTCONN:0,3,".toList ++ rest from rfl, hsplit,
      strstrSuffix_self_append]
  simp [hdrop, hchr, hatoi]

/-- C6: when the `AT+MQTTCONN?` exchange succeeds and the response buffer
carries a line `+MQTTCONN:0,4,...`, the call leaves the local state equal
to `MQTT_STATE_CONNECTED` with the connected flag set — and in general it
resynchronizes `state`/`connected` from the parsed numeric state field, as
the second conjunct shows for state value 3 (connected flag cleared). -/
theorem queryConnection_resync (m : MqttState) (rest : List Char) :
    ((MQTT_QueryConnection m .OK
        (String.mk ("+MQTTCONN:0,4,".toList ++ rest))).2.state
          = MQTT_STATE_CONNECTED ∧
     (MQTT_QueryConnection m .OK
        (String.mk ("+MQTTCONN:0,4,".toList ++ rest))).2.connected = true ∧
     (MQTT_QueryConnection m .OK
        (String.mk ("+MQTTCONN:0,4,".toList ++ rest))).1
          = MQTT_Status.OK) ∧
    ((MQTT_QueryConnection m .OK
        (String.mk ("+MQTTCONN:0,3,".toList ++ rest))).2.state = 3 ∧
     (MQTT_QueryConnection m .OK
        (String.mk ("+MQTTCONN:0,3,".toList ++ rest))).2.connected
          = false) := by
  rw [MQTT_QueryConnection_state4, MQTT_QueryConnection_state3]
  exact ⟨⟨rfl, rfl, rfl⟩, rfl, rfl⟩

/-- C6, witness: a full simulated `+MQTTCONN` response line restores
`state == MQTT_STATE_CONNECTED` on a freshly initialized handle. -/
theorem queryConnection_resync_witness :
    (MQTT_QueryConnection initMqtt .OK
        (String.mk ("+MQTTCONN:0,4,".toList
          ++ "1,\"broker\",1883,\"\",1".toList))).2.state
      = MQTT_STATE_CONNECTED ∧
    (MQTT_QueryConnection initMqtt .OK
        (String.mk ("+MQTTCONN:0,4,".toList
          ++ "1,\"broker\",1883,\"\",1".toList))).2.connected = true :=
  ⟨(queryConnection_resync initMqtt "1,\"broker\",1883,\"\",1".toList).1.1,
   (queryConnection_resync initMqtt "1,\"broker\",1883,\"\",1".toList).1.2.1⟩

/-- `removeFirstSub` is the identity when no active entry has the topic. -/
theorem removeFirstSub_not_mem (subs : List Subscription) (topic : String)
    (h : ∀ s ∈ subs, ¬(s.active = true ∧ s.topic = topic)) :
    removeFirstSub subs topic = (subs, false) := by
  induction subs with
  | nil => rfl
  | cons a l ih =>
      have ha : (a.active && (a.topic == topic)) = false := by
        have := h a (List.mem_cons_self a l)
        by_cases h1 : a.active = true <;> by_cases h2 : a.topic = topic <;>
          simp_all
      simp [removeFirstSub, ha,
            ih (fun s hs => h s (List.mem_cons_of_mem a hs))]

/-- `updateFirstSub` preserves which slots are active and their topics. -/
theorem updateFirstSub_shape (subs : List Subscription) (topic : String)
    (qos : Nat) :
    (updateFirstSub subs topic qos).map (fun s => (s.active, s.topic))
      = subs.map (fun s => (s.active, s.topic)) := by
  induction subs with
  | nil => rfl
  | cons a l ih =>
      by_cases hc : (a.active && (a.topic == topic)) = true
      · simp [updateFirstSub, hc]
      · simp [updateFirstSub, hc, ih]

/-- After `updateFirstSub` on a list containing an active entry for the
topic, some active entry carries the topic with the new QoS. -/
theorem updateFirstSub_sets_qos (subs : List Subscription) (topic : String)
    (qos : Nat) (h : ∃ s ∈ subs, s.active = true ∧ s.topic = topic) :
    ∃ s ∈ updateFirstSub subs topic qos,
      s.active = true ∧ s.topic = topic ∧ s.qos = qos := by
  induction subs with
  | nil => simp at h
  | cons a l ih =>
      by_cases hc : (a.active && (a.topic == topic)) = true
      · have h1 : a.active = true := by simp_all
        have h2 : a.topic = topic := by
          have := (Bool.and_eq_true _ _).mp hc
          exact beq_iff_eq.mp this.2
        refine ⟨{ a with qos := qos }, ?_, by simp [h1, h2]⟩
        simp [updateFirstSub, hc]
      · obtain ⟨s, hs, hsa, hst⟩ := h
        rcases List.mem_cons.mp hs with rfl | hmem
        · exact absurd (by simp [hsa, hst]) hc
        · obtain ⟨s', hs', hprop⟩ := ih ⟨s, hmem, hsa, hst⟩
          refine ⟨s', ?_, hprop⟩
          simp [updateFirstSub, hc]
          exact Or.inr hs'

/-- The dedupe scan of `MQTT_AddSubscription` finds an entry exactly when an
active entry carries the topic. -/
theorem subs_any_eq_true (subs : List Subscription) (topic : String) :
    subs.any (fun s => s.active && s.topic == topic) = true
      ↔ ∃ s ∈ subs, s.active = true ∧ s.topic = topic := by
  simp [List.any_eq_true, Bool.and_eq_true, beq_iff_eq]

/-- C3: (1) `MQTT_Subscribe` keeps the subscription count within the
capacity of 8; (2) a successful subscribe to a topic that already has an
active entry updates that entry's QoS in place — the count and the
(active, topic) shape of the slots are unchanged, no duplicate appears, and
an active entry now carries the new QoS; (3) subscribing with the set
holding 8 entries fails with `BUFFER_FULL`, changing nothing and sending
nothing. -/
theorem mqtt_subscribe_props :
    (∀ (m : MqttState) (topic : String) (qos : Nat) (exch : ESP8266_Status),
        m.subscriptionCount ≤ 8 →
        (MQTT_Subscribe m false topic qos exch).st.subscriptionCount ≤ 8) ∧
    (∀ (m : MqttState) (topic : String) (qos : Nat),
        (∃ s ∈ m.subs, s.active = true ∧ s.topic = topic) →
        (MQTT_Subscribe m false topic qos .OK).status = MQTT_Status.OK →
        (MQTT_Subscribe m false topic qos .OK).st.subscriptionCount
            = m.subscriptionCount ∧
        ((MQTT_Subscribe m false topic qos .OK).st.subs.map
            (fun s => (s.active, s.topic))
          = m.subs.map (fun s => (s.active, s.topic))) ∧
        ∃ s ∈ (MQTT_Subscribe m false topic qos .OK).st.subs,
          s.active = true ∧ s.topic = topic ∧ s.qos = qos) ∧
    (∀ (m : MqttState) (topic : String) (qos : Nat) (exch : ESP8266_Status),
        m.initialized = true → m.connected = true →
        m.subscriptionCount = 8 →
        MQTT_Subscribe m false topic qos exch
          = ⟨MQTT_Status.BUFFER_FULL, m, [], []⟩) := by
  refine ⟨?_, ?_, ?_⟩
  · intro m topic qos exch h8
    cases hI : m.initialized with
    | false => simpa [MQTT_Subscribe, hI] using h8
    | true =>
        cases hC : m.connected with
        | false => simpa [MQTT_Subscribe, hI, hC] using h8
        | true =>
            by_cases hc8 : 8 ≤ m.subscriptionCount
            · simpa [MQTT_Subscribe, hI, hC, hc8] using h8
            · by_cases he : exch = ESP8266_Status.OK
              · subst he
                simp only [MQTT_Subscribe, hI, hC, hc8, MQTT_AddSubscription]
                by_cases hAny : m.subs.any
                    (fun s => s.active && s.topic == topic) = true
                · simpa [hAny] using h8
                · simp [hAny]
                  split
                  · calc (m.subscriptionCount + 1) % 256
                        ≤ m.subscriptionCount + 1 := Nat.mod_le _ _
                      _ ≤ 8 := by omega
                  · exact h8
              · simpa [MQTT_Subscribe, hI, hC, hc8, he] using h8
  · intro m topic qos hex hOK
    have hAny : m.subs.any (fun s => s.active && s.topic == topic) = true :=
      (subs_any_eq_true _ _).mpr hex
    cases hI : m.initialized with
    | false => simp [MQTT_Subscribe, hI] at hOK
    | true =>
        cases hC : m.connected with
        | false => simp [MQTT_Subscribe, hI, hC] at hOK
        | true =>
            by_cases hc8 : 8 ≤ m.subscriptionCount
            · simp [MQTT_Subscribe, hI, hC, hc8] at hOK
            · refine ⟨?_, ?_, ?_⟩ <;>
                simp [MQTT_Subscribe, hI, hC, hc8, MQTT_AddSubscription,
                      hAny, updateFirstSub_shape]
              exact updateFirstSub_sets_qos m.subs topic qos hex
  · intro m topic qos exch hI hC h8
    simp [MQTT_Subscribe, hI, hC, h8]

/-- A connected session whose 8 subscription slots are all occupied. -/
def exFull : MqttState :=
  { initMqtt with
      connected := true
      state := MQTT_STATE_CONN_WITH_SUB
      subs := List.replicate 8 { topic := "t", qos := 0, active := true }
      subscriptionCount := 8 }

/-- C3, witness: re-subscribing `t/1` at QoS 2 keeps the count at 1; a full
set rejects a new topic with `BUFFER_FULL`. -/
theorem mqtt_subscribe_props_witness :
    (MQTT_Subscribe exSubscribed false "t/1" 2 .OK).st.subscriptionCount
      ≤ 8 ∧
    (MQTT_Subscribe exSubscribed false "t/1" 2 .OK).st.subscriptionCount
      = exSubscribed.subscriptionCount ∧
    MQTT_Subscribe exFull false "x" 0 .OK
      = ⟨MQTT_Status.BUFFER_FULL, exFull, [], []⟩ := by
  refine ⟨mqtt_subscribe_props.1 exSubscribed "t/1" 2 .OK (by decide),
          (mqtt_subscribe_props.2.1 exSubscribed "t/1" 2 (by decide)
            (by decide)).1,
          mqtt_subscribe_props.2.2 exFull "x" 0 .OK (by decide) (by decide)
            (by decide)⟩

/-- C9: a successful unsubscribe of a topic with no active entry returns
`MQTT_OK` and leaves both the subscription array and the count unchanged
(idempotent remove). -/
theorem mqtt_unsubscribe_idempotent (m : MqttState) (topic : String)
    (h1 : m.initialized = true) (h2 : m.connected = true)
    (h3 : ∀ s ∈ m.subs, ¬(s.active = true ∧ s.topic = topic)) :
    (MQTT_Unsubscribe m false topic .OK).status = MQTT_Status.OK ∧
    (MQTT_Unsubscribe m false topic .OK).st.subs = m.subs ∧
    (MQTT_Unsubscribe m false topic .OK).st.subscriptionCount
      = m.subscriptionCount := by
  have hrm := removeFirstSub_not_mem m.subs topic h3
  simp [MQTT_Unsubscribe, MQTT_RemoveSubscription, h1, h2, hrm]

/-- C9, witness. -/
theorem mqtt_unsubscribe_idempotent_witness :
    (MQTT_Unsubscribe exSubscribed false "other" .OK).status
      = MQTT_Status.OK ∧
    (MQTT_Unsubscribe exSubscribed false "other" .OK).st.subscriptionCount
      = exSubscribed.subscriptionCount := by
  have h := mqtt_unsubscribe_idempotent exSubscribed "other" (by decide)
    (by decide) (by decide)
  exact ⟨h.1, h.2.2⟩
